import Mathlib

/-!
Verification development for the tutorifull web backend (src/tutorifull.py).

The repository ships a single Flask application file.  Its helper modules
(models.py, util.py, contact.py, constants.py, dbhelper.py) are not part of
the sources, so the entity definitions, the commit discipline of the
database session and the external Yo-name lookup are modelled from the
specification where noted; everything else is translated directly from
src/tutorifull.py.

Conventions of the shallow embedding:
* Python regular expressions are embedded as a small regex AST with a
  Brzozowski-derivative matcher.  The character classes are restricted to
  ASCII (the Python classes are Unicode aware); every input appearing in the claims
  is ASCII.
* `re.match` with a pattern of shape `^...$` matches the whole string, or
  the whole string minus one trailing newline (the Python `$` also matches
  just before a final newline); `pyMatch` reproduces this.
* The database session is a value of type `Db`; queries are list
  operations over it.  Template rendering is presentation and out of
  scope; a `Response` carries exactly the data the handler passes to the
  template.
-/

/-! ## Regular expressions (embedding of Python `re` patterns) -/

inductive RE where
  | nul
  | eps
  | cls (p : Char → Bool)
  | cat (a b : RE)
  | alt (a b : RE)
  | star (a : RE)

def RE.nullable : RE → Bool
  | .nul => false
  | .eps => true
  | .cls _ => false
  | .cat a b => a.nullable && b.nullable
  | .alt a b => a.nullable || b.nullable
  | .star _ => true

def RE.deriv : RE → Char → RE
  | .nul, _ => .nul
  | .eps, _ => .nul
  | .cls p, c => if p c then .eps else .nul
  | .cat a b, c =>
      if a.nullable then .alt (.cat (a.deriv c) b) (b.deriv c)
      else .cat (a.deriv c) b
  | .alt a b, c => .alt (a.deriv c) (b.deriv c)
  | .star a, c => .cat (a.deriv c) (.star a)

/-- Whole-list regex match via Brzozowski derivatives. -/
def reFull (r : RE) (cs : List Char) : Bool :=
  (cs.foldl RE.deriv r).nullable

/-- Model of Python `re.match` for a pattern anchored as `^...$`: the
pattern must cover the whole string, where `$` also matches just before a
single trailing newline. -/
def pyMatch (r : RE) (s : String) : Bool :=
  reFull r s.data || (s.data.getLast? == some '\n' && reFull r s.data.dropLast)

def chRE (c : Char) : RE := .cls (fun d => d == c)

def strRE (s : String) : RE :=
  s.data.foldr (fun c r => .cat (chRE c) r) .eps

/-- One or more repetitions, Python `+`. -/
def plusRE (a : RE) : RE := .cat a (.star a)

/-- Zero or one repetition, Python `?`. -/
def optRE (a : RE) : RE := .alt .eps a

/-- Exactly `n` repetitions, Python `{n}`. -/
def repRE (a : RE) : Nat → RE
  | 0 => .eps
  | n + 1 => .cat a (repRE a n)

/-! ## The three contact validators of `save_alerts` -/

/-- ASCII model of Python `str.upper` (the claims only use ASCII inputs). -/
def pyUpper (s : String) : String := ⟨s.data.map Char.toUpper⟩

/-- The email pattern of src/tutorifull.py line 105:
`^[^@]+@[^@]+\.[^@]+$`. -/
def emailRE : RE :=
  .cat (plusRE (.cls (fun c => c != '@')))
    (.cat (chRE '@')
      (.cat (plusRE (.cls (fun c => c != '@')))
        (.cat (chRE '.') (plusRE (.cls (fun c => c != '@'))))))

/-- The email check of `save_alerts`: `re.match` with the pattern `^[^@]+@[^@]+\.[^@]+$`. -/
def emailValid (contact : String) : Bool := pyMatch emailRE contact

/-- The phone normalization of `save_alerts` line 109:
`re.sub` with pattern `[^0-9+]` and empty replacement deletes every character that is neither an
ASCII digit nor a plus sign. -/
def phoneStrip (s : String) : String :=
  ⟨s.data.filter (fun c => c.isDigit || c == '+')⟩

/-- The phone pattern of src/tutorifull.py line 111: `^(04|\+?614)\d{8}$`. -/
def phoneRE : RE :=
  .cat (.alt (strRE "04") (.cat (optRE (chRE '+')) (strRE "614")))
    (repRE (.cls Char.isDigit) 8)

/-- The phone check of `save_alerts`: `re.match` with the pattern `^(04|\+?614)\d{8}$`. -/
def phoneValid (contact : String) : Bool := pyMatch phoneRE contact

/-- The Yo-name pattern of src/tutorifull.py line 118: `^(\d|\w)+$`.
The Python `\w` is letters, digits and the underscore (ASCII model). -/
def yoRE : RE :=
  plusRE (.alt (.cls Char.isDigit) (.cls (fun c => c.isAlphanum || c == '_')))

/-- The Yo-name check of `save_alerts` lines 118-119:
`not re.match(pattern, contact) or not is_valid_yo_name(contact)` with pattern `^(\d|\w)+$`
refuses the contact; acceptance is the conjunction below.  The external
lookup `is_valid_yo_name` (contact.py, not in the sources) is passed as a
function argument. -/
def yoValid (is_valid_yo_name : String → Bool) (contact : String) : Bool :=
  pyMatch yoRE contact && is_valid_yo_name contact

/-- The Python `or` short-circuits, so in
`not re.match(pattern, contact) or not is_valid_yo_name(contact)` with pattern `^(\d|\w)+$`
the external lookup is invoked exactly when the regex matched the
uppercased name. -/
def yoLookupInvoked (yoname : String) : Bool :=
  pyMatch yoRE (pyUpper yoname)

/-! ## SQL `ILIKE` patterns (the search query of `search_courses`) -/

inductive PTok where
  | pct
  | usc
  | lit (c : Char)
deriving DecidableEq, Repr

/-- Reading a SQL LIKE pattern: `%` matches any sequence, `_` any single
character, everything else itself (no escape character is used by the
code). -/
def toPat (p : List Char) : List PTok :=
  p.map (fun c => if c = '%' then .pct else if c = '_' then .usc else .lit c)

/-- SQL LIKE matching of a tokenized pattern against a string: `%` consumes
an arbitrary prefix, i.e. the rest of the pattern must match some suffix. -/
def patMatch : List PTok → List Char → Bool
  | [], [] => true
  | [], _ :: _ => false
  | .pct :: ps2, s => s.tails.any (fun t => patMatch ps2 t)
  | .usc :: _, [] => false
  | .usc :: ps2, _ :: s2 => patMatch ps2 s2
  | .lit _ :: _, [] => false
  | .lit c :: ps2, d :: s2 => (c == d) && patMatch ps2 s2

/-- Case-insensitive SQL LIKE, the semantics of the SQLAlchemy `ilike`:
both the pattern and the string are compared lowercased. -/
def sqlILike (pat s : String) : Bool :=
  patMatch (toPat (pat.data.map Char.toLower)) (s.data.map Char.toLower)

/-! ## Data model

Modelled from the spec: models.py is not in the sources.  A `Course` is
identified by `dept_id` and `course_id` with a derived unique
`compound_id` and a display `name`; a `Klass` has a unique numeric
`klass_id` and belongs to one course (referenced by its compound
identifier); an `Alert` stores a class id, a contact type and a contact
string. -/

inductive ContactType where
  | email
  | sms
  | yo
deriving DecidableEq, Repr

structure Course where
  dept_id : String
  course_id : String
  compound_id : String
  name : String
deriving DecidableEq, Repr

structure Klass where
  klass_id : Nat
  compound_id : String
deriving DecidableEq, Repr

structure Alert where
  klass_id : Nat
  contact_type : ContactType
  contact : String
deriving DecidableEq, Repr

/-- The persistent store visible through the SQLAlchemy session. -/
structure Db where
  courses : List Course
  klasses : List Klass
  alerts : List Alert
deriving DecidableEq, Repr

/-- Modelled from the spec: the classes of a course (models.py relationship,
used by `to_dict(with_classes=True)`) are the Klass rows referencing the
compound identifier of the owning course. -/
def classesOf (db : Db) (c : Course) : List Klass :=
  db.klasses.filter (fun k => k.compound_id == c.compound_id)

/-! ## Request body of `POST /api/alerts` -/

/-- The JSON body read by `save_alerts` via `request.get_json()`.  A field
is `none` when the key is absent (or null).  `classids` defaults to `[]`
via `post_data.get` with default `[]`. -/
structure PostData where
  email : Option String
  phonenumber : Option String
  yoname : Option String
  classids : Option (List Nat)
deriving DecidableEq, Repr

/-- Python truthiness of `post_data.get(field)` for a string field:
present and non-empty. -/
def truthy : Option String → Bool
  | none => false
  | some s => !s.isEmpty

/-- A JSON object with no keys is falsy in Python, so `if not post_data`
also catches the empty object. -/
def PostData.isEmptyJson (pd : PostData) : Bool :=
  pd.email.isNone && pd.phonenumber.isNone && pd.yoname.isNone && pd.classids.isNone

/-- The data a handler run hands to the presentation layer (template
rendering itself is out of scope).  `serverFailure` is the uncaught
exception of a failed `db_session.commit()`. -/
inductive Response where
  | errorPage (error : String)
  | alertPage (contact_type : ContactType) (contact : String) (klasses : List Klass)
  | serverFailure
deriving DecidableEq, Repr

/-! ## The alert-submission handler `save_alerts` -/

/-- The class resolution of `save_alerts` lines 128-130:
`db_session.query(Klass).filter(Klass.klass_id.in_(klass_ids)).all()`. -/
def resolveKlasses (db : Db) (klass_ids : List Nat) : List Klass :=
  db.klasses.filter (fun k => klass_ids.contains k.klass_id)

/-- The registration tail of `save_alerts` (lines 128-147), reached after
contact validation.  Modelled from the spec where the database session is
concerned (dbhelper.py is not in the sources): `db_session.commit()` makes
all rows added in the session visible atomically; on a persistence failure
(`commitOk = false`) none of them are retained and the exception
propagates. -/
def saveAlertsResolved (commitOk : Bool) (db : Db) (klass_ids : List Nat)
    (contact_type : ContactType) (contact : String) : Response × Db :=
  let klasses := resolveKlasses db klass_ids
  if klasses.isEmpty then
    (.errorPage ("Please select at least one class " ++ "before submitting."), db)
  else
    let newAlerts := klasses.map (fun k =>
      { klass_id := k.klass_id, contact_type := contact_type, contact := contact })
    if commitOk then
      (.alertPage contact_type contact klasses,
       { db with alerts := db.alerts ++ newAlerts })
    else
      (.serverFailure, db)

/-- The handler of `POST /api/alerts` (src/tutorifull.py lines 87-147).
`is_valid_yo_name` is the external name-validity lookup (contact.py, not
in the sources); `commitOk` tells whether `db_session.commit()` succeeds.
`post_data = none` models an absent, unparsable or otherwise falsy
request body. -/
def save_alerts (is_valid_yo_name : String → Bool) (commitOk : Bool)
    (db : Db) (post_data : Option PostData) : Response × Db :=
  match post_data with
  | none => (.errorPage "Something went wrong", db)
  | some pd =>
    if pd.isEmptyJson then
      (.errorPage "Something went wrong", db)
    else if truthy pd.email then
      let contact := pd.email.getD ""
      if !emailValid contact then
        (.errorPage "Please enter a valid email address", db)
      else
        saveAlertsResolved commitOk db (pd.classids.getD []) .email contact
    else if truthy pd.phonenumber then
      let contact := phoneStrip (pd.phonenumber.getD "")
      if !phoneValid contact then
        (.errorPage ("Please enter a valid Australian " ++ "phone number"), db)
      else
        saveAlertsResolved commitOk db (pd.classids.getD []) .sms contact
    else if truthy pd.yoname then
      let contact := pyUpper (pd.yoname.getD "")
      if !yoValid is_valid_yo_name contact then
        (.errorPage "Please enter a valid YO username", db)
      else
        saveAlertsResolved commitOk db (pd.classids.getD []) .yo contact
    else
      (.errorPage ("Please enter some contact info before " ++ "submitting."), db)

/-! ## The read handlers -/

/-- The handler of `GET /api/courses` (src/tutorifull.py lines 150-161):
the pattern `%q%` built by string concatenation is matched with `ilike` against the course name or the
compound identifier, truncated by `.limit(MAX_SEARCH_RESULTS)`.  The
constant MAX_SEARCH_RESULTS lives in constants.py (not in the sources) and
is passed as a parameter. -/
def search_courses (db : Db) (MAX_SEARCH_RESULTS : Nat) (q : String) : List Course :=
  let search_query := "%" ++ q ++ "%"
  (db.courses.filter (fun c =>
    sqlILike search_query c.name || sqlILike search_query c.compound_id)).take
    MAX_SEARCH_RESULTS

/-- The two failure modes of the SQLAlchemy `Query.one()`. -/
inductive LookupErr where
  | noResultFound
  | multipleResultsFound
deriving DecidableEq, Repr

/-- The SQLAlchemy `Query.one()`: the unique row, `NoResultFound` on zero
rows, `MultipleResultsFound` on several. -/
def queryOne {α : Type} : List α → Except LookupErr α
  | [] => .error .noResultFound
  | [a] => .ok a
  | _ :: _ :: _ => .error .multipleResultsFound

/-- The lookup of `course_info` (src/tutorifull.py lines 169-170):
`db_session.query(Course).filter_by(dept_id=..., course_id=...).one()`. -/
def getCourse (db : Db) (dept_id course_id : String) : Except LookupErr Course :=
  queryOne (db.courses.filter (fun c =>
    c.dept_id == dept_id && c.course_id == course_id))

/-- The handler of `GET /api/courses/<course_id>` after course-id
validation: the unique matching course serialized with its full class
list (`to_dict(with_classes=True)`, modelled from the spec since models.py
is not in the sources). -/
def course_info (db : Db) (dept_id course_id : String) :
    Except LookupErr (Course × List Klass) :=
  (getCourse db dept_id course_id).map (fun c => (c, classesOf db c))

/-! ## Specification-side definitions (used only to compare against the
code, never by the handlers) -/

/-- Containment of `needle` in `hay` as a contiguous subsequence. -/
def containsSeq (needle : List Char) : List Char → Bool
  | [] => needle.isEmpty
  | c :: hay => needle.isPrefixOf (c :: hay) || containsSeq needle hay

/-- The search criterion in the words of the spec: the query is a
case-insensitive substring of the field. -/
def specContainsCI (q s : String) : Bool :=
  containsSeq (q.data.map Char.toLower) (s.data.map Char.toLower)

/-! ## Sample data used by concrete witnesses and counterexamples -/

def kY : Klass := { klass_id := 1, compound_id := "COMP1511" }

def dbY : Db := { courses := [], klasses := [kY], alerts := [] }

def pdY : PostData :=
  { email := none, phonenumber := none, yoname := some "foo_bar", classids := some [1] }

def cAxb : Course := { dept_id := "A", course_id := "1", compound_id := "A1", name := "axb" }

def dbAxb : Db := { courses := [cAxb], klasses := [], alerts := [] }

def cW : Course :=
  { dept_id := "COMP", course_id := "1511", compound_id := "COMP1511", name := "Computing 1A" }

def dbW : Db := { courses := [cW], klasses := [kY], alerts := [] }

def pdBadEmail : PostData :=
  { email := some "nope", phonenumber := none, yoname := none, classids := some [1] }

def pdBoth : PostData :=
  { email := some "a@b.co", phonenumber := some "0412345678", yoname := some "FOO",
    classids := some [1] }

def pdEmptyEmail : PostData :=
  { email := some "", phonenumber := none, yoname := none, classids := none }

/-! ## Helper lemmas -/

theorem patMatch_lit_pct (ls : List Char) (t : List Char) :
    patMatch (ls.map PTok.lit ++ [PTok.pct]) t = ls.isPrefixOf t := by
  induction ls generalizing t with
  | nil =>
    simp only [List.map_nil, List.nil_append]
    rw [patMatch]
    rw [List.any_eq_true.mpr ?_]
    · simp [List.isPrefixOf]
    · exact ⟨[], by simp [List.mem_tails], by simp [patMatch]⟩
  | cons l ls ih =>
    cases t with
    | nil => simp [patMatch, List.isPrefixOf]
    | cons c t2 => simp [patMatch, List.isPrefixOf, ih]

theorem containsSeq_eq_any (ls : List Char) (s : List Char) :
    containsSeq ls s = s.tails.any (fun t => ls.isPrefixOf t) := by
  induction s with
  | nil =>
    simp [containsSeq, List.isPrefixOf]
    cases ls <;> simp [List.isPrefixOf]
  | cons c s2 ih => simp [containsSeq, ih, List.tails]

theorem patMatch_pct_wrap (ls : List Char) (s : List Char) :
    patMatch (PTok.pct :: (ls.map PTok.lit ++ [PTok.pct])) s = containsSeq ls s := by
  rw [patMatch, containsSeq_eq_any]
  exact congrArg (fun p => s.tails.any p) (funext fun t => patMatch_lit_pct ls t)

theorem toPat_of_wildcard_free (q : List Char)
    (h : ∀ c ∈ q, c ≠ '%' ∧ c ≠ '_') : toPat q = q.map PTok.lit := by
  induction q with
  | nil => rfl
  | cons c q2 ih =>
    have hc := h c (by simp)
    simp only [toPat, List.map_cons] at *
    rw [if_neg hc.1, if_neg hc.2, ih (fun d hd => h d (by simp [hd]))]

theorem toLower_ne_special (c : Char) (h1 : c ≠ '%') (h2 : c ≠ '_') :
    c.toLower ≠ '%' ∧ c.toLower ≠ '_' := by
  have hdef : c.toLower
      = if c.toNat ≥ 65 ∧ c.toNat ≤ 90 then Char.ofNat (c.toNat + 32) else c := rfl
  rw [hdef]
  by_cases hc : c.toNat ≥ 65 ∧ c.toNat ≤ 90
  · rw [if_pos hc]
    obtain ⟨h65, h90⟩ := hc
    set m := c.toNat with hm
    clear hm hdef h1 h2
    interval_cases m <;> exact ⟨by decide, by decide⟩
  · rw [if_neg hc]; exact ⟨h1, h2⟩

theorem data_append_pct (q : String) :
    ("%" ++ q ++ "%").data = '%' :: q.data ++ ['%'] := by
  simp [String.data_append]

theorem containsSeq_nil_left (s : List Char) : containsSeq [] s = true := by
  cases s <;> simp [containsSeq, List.isPrefixOf]

theorem sqlILike_wrap_eq (q s : String)
    (h : ∀ c ∈ q.data, c ≠ '%' ∧ c ≠ '_') :
    sqlILike ("%" ++ q ++ "%") s = specContainsCI q s := by
  have hL : ∀ c ∈ q.data.map Char.toLower, c ≠ '%' ∧ c ≠ '_' := by
    intro c hc
    obtain ⟨d, hd, rfl⟩ := List.mem_map.mp hc
    exact toLower_ne_special d (h d hd).1 (h d hd).2
  unfold sqlILike specContainsCI
  rw [data_append_pct]
  rw [show ('%' :: q.data ++ ['%']).map Char.toLower
      = '%' :: (q.data.map Char.toLower) ++ ['%'] by
    simp only [List.map_cons, List.map_append, List.map_nil]; rfl]
  rw [show toPat ('%' :: (q.data.map Char.toLower) ++ ['%'])
      = PTok.pct :: (toPat (q.data.map Char.toLower) ++ [PTok.pct]) by
    simp [toPat]]
  rw [toPat_of_wildcard_free _ hL, patMatch_pct_wrap]

theorem isEmpty_false_of_ne (s : String) (h : s ≠ "") : s.isEmpty = false := by
  cases hb : s.isEmpty
  · rfl
  · exact absurd ((String.isEmpty_iff s).mp hb) h

theorem truthy_isNone_false (o : Option String) (h : truthy o = true) :
    o.isNone = false := by
  cases o with
  | none => simp [truthy] at h
  | some s => rfl

theorem saveAlertsResolved_alerts_mem (ok : Bool) (db : Db) (ids : List Nat)
    (ct : ContactType) (contact : String) :
    ∀ a ∈ (saveAlertsResolved ok db ids ct contact).2.alerts,
      a ∈ db.alerts ∨ (a.contact = contact ∧ a.contact_type = ct) := by
  intro a ha
  by_cases hk : (resolveKlasses db ids).isEmpty
  · simp [saveAlertsResolved, hk] at ha
    exact Or.inl ha
  · cases ok with
    | false =>
      simp [saveAlertsResolved, hk] at ha
      exact Or.inl ha
    | true =>
      simp [saveAlertsResolved, hk] at ha
      rcases ha with ha | ⟨k, hkmem, rfl⟩
      · exact Or.inl ha
      · exact Or.inr ⟨rfl, rfl⟩

/-! ## Claim theorems -/

/-- C1, counterexample.  The claim says the input "foo_bar" is rejected as
non-alphanumeric without ever invoking the external lookup.  In the code
the uppercased "FOO_BAR" matches the regex (the word-character class
includes the underscore), so the external lookup IS invoked, and with a
lookup answering true the whole submission succeeds: the input is not
rejected. -/
theorem yo_underscore_counterexample :
    yoLookupInvoked "foo_bar" = true
    ∧ yoValid (fun _ => true) (pyUpper "foo_bar") = true
    ∧ (save_alerts (fun _ => true) true dbY (some pdY)).1
        = .alertPage .yo "FOO_BAR" [kY] :=
  ⟨by decide, by decide, by decide⟩

/-- C1, amended.  The Yo-name validator uppercases the input; since the
regex word-character class includes the underscore, "foo_bar" (uppercased
"FOO_BAR") passes the regex, so the external lookup is invoked and the
input is accepted exactly when the lookup returns true on "FOO_BAR"; the
alphanumeric "FOOBAR" is likewise accepted exactly when the lookup returns
true on it. -/
theorem yo_validator_amended (orc : String → Bool) :
    pyUpper "foo_bar" = "FOO_BAR"
    ∧ yoLookupInvoked "foo_bar" = true
    ∧ yoValid orc (pyUpper "foo_bar") = orc "FOO_BAR"
    ∧ yoValid orc (pyUpper "FOOBAR") = orc "FOOBAR" := by
  refine ⟨by decide, by decide, ?_, ?_⟩
  · unfold yoValid
    rw [show pyUpper "foo_bar" = "FOO_BAR" from by decide]
    rw [show pyMatch yoRE "FOO_BAR" = true from by decide]
    simp
  · unfold yoValid
    rw [show pyUpper "FOOBAR" = "FOOBAR" from by decide]
    rw [show pyMatch yoRE "FOOBAR" = true from by decide]
    simp

/-- C2, counterexample.  The claim says the search returns exactly the
courses containing the query as a case-insensitive substring, for every
query string.  The code interpolates the raw query into an ILIKE pattern,
so a query containing the LIKE wildcard `%` matches more: the query "a%b"
returns the course named "axb" although "a%b" is not a substring of any
of its fields. -/
theorem search_like_counterexample :
    search_courses dbAxb 10 "a%b" = [cAxb]
    ∧ (specContainsCI "a%b" cAxb.name || specContainsCI "a%b" cAxb.compound_id) = false :=
  ⟨by decide, by decide⟩

/-- C2, amended.  For every query string free of the SQL LIKE wildcards
`%` and `_`, the search returns exactly the courses whose name or
compound identifier contains the query as a case-insensitive substring,
truncated to at most the result limit; the result never exceeds the
limit, the empty query matches all courses subject to the limit, and a
query matching no course returns the empty list.  (For general queries
the match follows the SQL LIKE semantics of the pattern `%q%`.) -/
theorem search_courses_amended (db : Db) (lim : Nat) (q : String)
    (h : ∀ c ∈ q.data, c ≠ '%' ∧ c ≠ '_') :
    (search_courses db lim q
        = (db.courses.filter (fun c =>
            specContainsCI q c.name || specContainsCI q c.compound_id)).take lim)
    ∧ (search_courses db lim q).length ≤ lim
    ∧ (search_courses db lim "" = db.courses.take lim)
    ∧ ((db.courses.filter (fun c =>
          specContainsCI q c.name || specContainsCI q c.compound_id)) = [] →
        search_courses db lim q = []) := by
  have hfun : (fun (c : Course) =>
        sqlILike ("%" ++ q ++ "%") c.name || sqlILike ("%" ++ q ++ "%") c.compound_id)
      = (fun c => specContainsCI q c.name || specContainsCI q c.compound_id) :=
    funext fun c => by
      rw [sqlILike_wrap_eq q c.name h, sqlILike_wrap_eq q c.compound_id h]
  have hmain : search_courses db lim q
      = (db.courses.filter (fun c =>
          specContainsCI q c.name || specContainsCI q c.compound_id)).take lim := by
    simp only [search_courses]
    rw [hfun]
  refine ⟨hmain, ?_, ?_, ?_⟩
  · rw [hmain]; exact List.length_take_le _ _
  · have h0 : ∀ c ∈ ("" : String).data, c ≠ '%' ∧ c ≠ '_' := by
      intro c hc; simp at hc
    have hfun0 : (fun (c : Course) =>
          sqlILike ("%" ++ "" ++ "%") c.name || sqlILike ("%" ++ "" ++ "%") c.compound_id)
        = (fun _ => true) :=
      funext fun c => by
        rw [sqlILike_wrap_eq "" c.name h0, sqlILike_wrap_eq "" c.compound_id h0]
        unfold specContainsCI
        simp [containsSeq_nil_left]
    simp only [search_courses]
    rw [hfun0, List.filter_true]
  · intro hEmpty
    rw [hmain, hEmpty, List.take_nil]

/-- C2, witness for the amended theorem at a concrete wildcard-free query. -/
theorem search_courses_amended_witness :
    search_courses dbAxb 10 "ax"
      = (dbAxb.courses.filter (fun c =>
          specContainsCI "ax" c.name || specContainsCI "ax" c.compound_id)).take 10 :=
  (search_courses_amended dbAxb 10 "ax" (by decide)).1

/-- C3.  Once a submission has passed validation and resolved to a
non-empty list of classes, the registration tail of `save_alerts` commits
one Alert row per resolved class as a single batch: on a successful commit
exactly the batch is appended to the visible alerts, and on a persistence
failure the visible alerts are unchanged (zero rows from the submission
remain). -/
theorem alert_batch_atomic (db : Db) (ids : List Nat) (ct : ContactType)
    (contact : String) (h : resolveKlasses db ids ≠ []) :
    ((saveAlertsResolved true db ids ct contact).2.alerts
        = db.alerts ++ (resolveKlasses db ids).map (fun k =>
            { klass_id := k.klass_id, contact_type := ct, contact := contact }))
    ∧ (saveAlertsResolved false db ids ct contact).2.alerts = db.alerts := by
  have hne : (resolveKlasses db ids).isEmpty = false := by
    cases hk : resolveKlasses db ids with
    | nil => exact absurd hk h
    | cons a l => rfl
  constructor <;> simp [saveAlertsResolved, hne]

/-- C3, witness. -/
theorem alert_batch_atomic_witness :
    ((saveAlertsResolved true dbY [1] .email "a@b.co").2.alerts
        = dbY.alerts ++ (resolveKlasses dbY [1]).map (fun k =>
            { klass_id := k.klass_id, contact_type := .email, contact := "a@b.co" }))
    ∧ (saveAlertsResolved false dbY [1] .email "a@b.co").2.alerts = dbY.alerts :=
  alert_batch_atomic dbY [1] .email "a@b.co" (by decide)

/-- C4.  A submission whose class-identifier list is empty, or resolves to
no existing Klass rows, fails with the no-classes-selected error and
leaves the store unchanged: zero Alert rows are created. -/
theorem alert_no_classes_error (ok : Bool) (db : Db) (ids : List Nat)
    (ct : ContactType) (contact : String)
    (h : ids = [] ∨ resolveKlasses db ids = []) :
    saveAlertsResolved ok db ids ct contact
      = (.errorPage ("Please select at least one class " ++ "before submitting."), db) := by
  have hres : resolveKlasses db ids = [] := by
    rcases h with h | h
    · subst h
      unfold resolveKlasses
      simp [List.contains]
    · exact h
  simp [saveAlertsResolved, hres]

/-- C4, witness. -/
theorem alert_no_classes_error_witness :
    saveAlertsResolved true dbY [] .email "a@b.co"
      = (.errorPage ("Please select at least one class " ++ "before submitting."), dbY) :=
  alert_no_classes_error true dbY [] .email "a@b.co" (Or.inl rfl)

/-- C5.  The single-course lookup errors when zero matches exist
(NoResultFound) and when more than one match exists (MultipleResultsFound)
rather than returning an empty or default value; with exactly one match it
returns that course together with its full list of classes. -/
theorem course_info_unique_lookup (db : Db) (dept cid : String) :
    ((db.courses.filter (fun x => x.dept_id == dept && x.course_id == cid)) = [] →
      course_info db dept cid = .error .noResultFound)
    ∧ (∀ a b rest,
        (db.courses.filter (fun x => x.dept_id == dept && x.course_id == cid))
          = a :: b :: rest →
        course_info db dept cid = .error .multipleResultsFound)
    ∧ (∀ c, (db.courses.filter (fun x => x.dept_id == dept && x.course_id == cid)) = [c] →
        course_info db dept cid = .ok (c, classesOf db c)) := by
  unfold course_info getCourse
  refine ⟨?_, ?_, ?_⟩
  · intro h; rw [h]; rfl
  · intro a b rest h; rw [h]; rfl
  · intro c h; rw [h]; rfl

/-- C5, witness. -/
theorem course_info_unique_lookup_witness :
    course_info dbW "COMP" "1511" = .ok (cW, [kY]) := by
  have h := (course_info_unique_lookup dbW "COMP" "1511").2.2 cW (by decide)
  rw [h]; rfl

/-- C6.  Every failing path of the alert-submission handler that precedes
registration — absent or malformed body, empty body, missing contact
field, invalid email, invalid phone number, invalid Yo name — returns an
error page and leaves the persistent store unchanged. -/
theorem save_alerts_validation_frame (orc : String → Bool) (ok : Bool) (db : Db) :
    (save_alerts orc ok db none = (.errorPage "Something went wrong", db))
    ∧ (∀ pd : PostData, pd.isEmptyJson = true →
        save_alerts orc ok db (some pd) = (.errorPage "Something went wrong", db))
    ∧ (∀ pd : PostData, truthy pd.email = false → truthy pd.phonenumber = false →
        truthy pd.yoname = false → pd.isEmptyJson = false →
        save_alerts orc ok db (some pd)
          = (.errorPage ("Please enter some contact info before " ++ "submitting."), db))
    ∧ (∀ (pd : PostData) (e : String), pd.email = some e → e ≠ "" → emailValid e = false →
        save_alerts orc ok db (some pd)
          = (.errorPage "Please enter a valid email address", db))
    ∧ (∀ (pd : PostData) (p : String), truthy pd.email = false → pd.phonenumber = some p →
        p ≠ "" → phoneValid (phoneStrip p) = false →
        save_alerts orc ok db (some pd)
          = (.errorPage ("Please enter a valid Australian " ++ "phone number"), db))
    ∧ (∀ (pd : PostData) (y : String), truthy pd.email = false → truthy pd.phonenumber = false →
        pd.yoname = some y → y ≠ "" → yoValid orc (pyUpper y) = false →
        save_alerts orc ok db (some pd)
          = (.errorPage "Please enter a valid YO username", db)) := by
  refine ⟨rfl, ?_, ?_, ?_, ?_, ?_⟩
  · intro pd hEmpty
    simp [save_alerts, hEmpty]
  · intro pd he hp hy hne
    simp [save_alerts, hne, he, hp, hy]
  · intro pd e hpe hne hval
    have hte : truthy (some e) = true := by
      simp [truthy, isEmpty_false_of_ne e hne]
    have hj : pd.isEmptyJson = false := by
      simp [PostData.isEmptyJson, hpe]
    simp [save_alerts, hj, hpe, hte, hval]
  · intro pd p he hpp hne hval
    have htp : truthy (some p) = true := by
      simp [truthy, isEmpty_false_of_ne p hne]
    have hj : pd.isEmptyJson = false := by
      simp [PostData.isEmptyJson, hpp]
    simp [save_alerts, hj, he, hpp, htp, hval]
  · intro pd y he hp hpy hne hval
    have hty : truthy (some y) = true := by
      simp [truthy, isEmpty_false_of_ne y hne]
    have hj : pd.isEmptyJson = false := by
      simp [PostData.isEmptyJson, hpy]
    simp [save_alerts, hj, he, hp, hpy, hty, hval]

/-- C6, witness: an invalid email is refused and the store is unchanged. -/
theorem save_alerts_validation_frame_witness :
    save_alerts (fun _ => false) true dbY (some pdBadEmail)
      = (.errorPage "Please enter a valid email address", dbY) :=
  (save_alerts_validation_frame (fun _ => false) true dbY).2.2.2.1 pdBadEmail "nope"
    rfl (by decide) (by decide)

/-- C7.  The email validator accepts "a@b.co" and rejects "a@@b.co" and
"ab.co". -/
theorem email_validator_examples :
    emailValid "a@b.co" = true
    ∧ emailValid "a@@b.co" = false
    ∧ emailValid "ab.co" = false := by decide

/-- C8.  The phone validator strips every character that is not a digit or
a plus sign, then matches the Australian-mobile pattern: "0412 345 678"
normalizes to "0412345678" and is accepted, "+61412345678" is accepted,
and "12345" is rejected. -/
theorem phone_validator_examples :
    phoneStrip "0412 345 678" = "0412345678"
    ∧ phoneValid (phoneStrip "0412 345 678") = true
    ∧ phoneValid (phoneStrip "+61412345678") = true
    ∧ phoneValid (phoneStrip "12345") = false := by decide

/-- C9.  When several contact fields hold non-empty values the handler
uses only the first in the order email, phonenumber, yoname: dropping the
later fields does not change the outcome, and every Alert row the run
creates stores the chosen contact value and type. -/
theorem save_alerts_precedence (orc : String → Bool) (ok : Bool) (db : Db) (pd : PostData) :
    (truthy pd.email = true →
      (save_alerts orc ok db (some pd)
          = save_alerts orc ok db (some ⟨pd.email, none, none, pd.classids⟩)
        ∧ ∀ a ∈ (save_alerts orc ok db (some pd)).2.alerts,
            a ∈ db.alerts ∨ (a.contact = pd.email.getD "" ∧ a.contact_type = .email)))
    ∧ (truthy pd.email = false → truthy pd.phonenumber = true →
      (save_alerts orc ok db (some pd)
          = save_alerts orc ok db (some ⟨pd.email, pd.phonenumber, none, pd.classids⟩)
        ∧ ∀ a ∈ (save_alerts orc ok db (some pd)).2.alerts,
            a ∈ db.alerts ∨ (a.contact = phoneStrip (pd.phonenumber.getD "")
                              ∧ a.contact_type = .sms))) := by
  constructor
  · intro hte
    have hj : pd.isEmptyJson = false := by
      simp [PostData.isEmptyJson, truthy_isNone_false pd.email hte]
    have hj2 : PostData.isEmptyJson ⟨pd.email, none, none, pd.classids⟩ = false := by
      simp [PostData.isEmptyJson, truthy_isNone_false pd.email hte]
    constructor
    · simp [save_alerts, hj, hj2, hte]
    · intro a ha
      by_cases hval : emailValid (pd.email.getD "")
      · rw [show save_alerts orc ok db (some pd)
            = saveAlertsResolved ok db (pd.classids.getD []) .email (pd.email.getD "") by
          simp [save_alerts, hj, hte, hval]] at ha
        exact saveAlertsResolved_alerts_mem ok db (pd.classids.getD []) .email
          (pd.email.getD "") a ha
      · rw [show save_alerts orc ok db (some pd)
            = (.errorPage "Please enter a valid email address", db) by
          simp [save_alerts, hj, hte, hval]] at ha
        exact Or.inl ha
  · intro hte htp
    have hj : pd.isEmptyJson = false := by
      simp [PostData.isEmptyJson, truthy_isNone_false pd.phonenumber htp]
    have hj2 : PostData.isEmptyJson ⟨pd.email, pd.phonenumber, none, pd.classids⟩ = false := by
      simp [PostData.isEmptyJson, truthy_isNone_false pd.phonenumber htp]
    constructor
    · simp [save_alerts, hj, hj2, hte, htp]
    · intro a ha
      by_cases hval : phoneValid (phoneStrip (pd.phonenumber.getD ""))
      · rw [show save_alerts orc ok db (some pd)
            = saveAlertsResolved ok db (pd.classids.getD []) .sms
                (phoneStrip (pd.phonenumber.getD "")) by
          simp [save_alerts, hj, hte, htp, hval]] at ha
        exact saveAlertsResolved_alerts_mem ok db (pd.classids.getD []) .sms
          (phoneStrip (pd.phonenumber.getD "")) a ha
      · rw [show save_alerts orc ok db (some pd)
            = (.errorPage ("Please enter a valid Australian " ++ "phone number"), db) by
          simp [save_alerts, hj, hte, htp, hval]] at ha
        exact Or.inl ha

/-- C9, witness: with email, phone number and Yo name all present, the
outcome equals the outcome on the email-only body. -/
theorem save_alerts_precedence_witness :
    save_alerts (fun _ => true) true dbY (some pdBoth)
      = save_alerts (fun _ => true) true dbY
          (some ⟨some "a@b.co", none, none, some [1]⟩) :=
  ((save_alerts_precedence (fun _ => true) true dbY pdBoth).1 (by decide)).1

/-- C10.  A contact field holding an empty string is treated as absent: if
each of the three contact fields is missing or empty (and the body itself
is a non-empty object), the handler answers with the missing-contact
error, not with a channel-specific one, and the store is unchanged. -/
theorem save_alerts_falsy_contact (orc : String → Bool) (ok : Bool) (db : Db)
    (pd : PostData)
    (he : pd.email = none ∨ pd.email = some "")
    (hp : pd.phonenumber = none ∨ pd.phonenumber = some "")
    (hy : pd.yoname = none ∨ pd.yoname = some "")
    (hne : pd.isEmptyJson = false) :
    save_alerts orc ok db (some pd)
      = (.errorPage ("Please enter some contact info before " ++ "submitting."), db) := by
  have hte : truthy pd.email = false := by
    rcases he with h | h <;> rw [h] <;> rfl
  have htp : truthy pd.phonenumber = false := by
    rcases hp with h | h <;> rw [h] <;> rfl
  have hty : truthy pd.yoname = false := by
    rcases hy with h | h <;> rw [h] <;> rfl
  simp [save_alerts, hne, hte, htp, hty]

/-- C10, witness: the body holding only an empty email yields the
missing-contact error. -/
theorem save_alerts_falsy_contact_witness :
    save_alerts (fun _ => true) true dbY (some pdEmptyEmail)
      = (.errorPage ("Please enter some contact info before " ++ "submitting."), dbY) :=
  save_alerts_falsy_contact (fun _ => true) true dbY pdEmptyEmail
    (Or.inr rfl) (Or.inl rfl) (Or.inl rfl) (by decide)
